import Mathlib

/-!
Verification of the design note for the Ghostty theme generator
(`src/main.py`).  The embedding below translates the pure core of the
program — the flat-format converter `convert_theme_to_conf`, the
theme-name prompt `get_theme_name`, and the privileged-writer functions
`save_conf_to_ghostty` / `prompt_and_attempt_sudo_save` /
`_attempt_save_with_sudo` — into Lean definitions.  External effects
(the interactive reads, the filesystem results, the exit codes of the
elevated `sudo` commands, the JSON parse of the model response) are
passed in explicitly as parameters, and each writer run returns a record
of its terminal outcome, the elevated commands it invoked, and the fate
of the temporary file.
-/

set_option autoImplicit false

namespace VibeJam

/-- A JSON value as it appears in a generated theme document: either a
scalar string field or a string-to-string object (the `palette`
sub-mapping). -/
inductive JValue where
  | jstr : String → JValue
  | jobj : List (String × String) → JValue
  deriving DecidableEq

/-- A theme document is an insertion-ordered JSON object, modelled as a
list of key/value pairs in iteration order (Python dicts preserve
insertion order). -/
abbrev ThemeDoc : Type := List (String × JValue)

/-- Lookup in an insertion-ordered mapping (Python `dict.get`): the value
attached to the first matching key, or `none`. -/
def dictGet {α : Type} (d : List (String × α)) (k : String) : Option α :=
  match d with
  | [] => none
  | p :: rest => if p.1 = k then some p.2 else dictGet rest k

/-- Rendering of a `JValue` inside a Python f-string: a scalar string is
inserted verbatim; a dict renders as its `repr` (modelled here for
escape-free strings only — no claim exercises this branch, since the
non-`palette` values of a theme document are scalar strings). -/
def pyStrOfJValue : JValue → String
  | .jstr s => s
  | .jobj m =>
      "\x7b" ++
        String.intercalate ", "
          (m.map (fun p => "\x27" ++ p.1 ++ "\x27: \x27" ++ p.2 ++ "\x27")) ++
      "\x7d"

/-- The palette sub-mapping of a theme document:
`theme_data.get("palette", {})` in `convert_theme_to_conf`.  A scalar
value under the key `palette` would make the Python code raise (strings
have no `.get`); it is mapped to the empty mapping here and excluded by
the well-formedness hypotheses of every theorem that could reach it. -/
def paletteOf (theme_data : ThemeDoc) : List (String × String) :=
  match dictGet theme_data "palette" with
  | some (.jobj m) => m
  | some (.jstr _) => []
  | none => []

/-- One iteration of the palette loop of `convert_theme_to_conf`: the
emitted line for index `i`, or `none` when `palette.get(str(i))` is
falsy (absent, or present with the empty string as value). -/
def palette_line_of (palette : List (String × String)) (i : Nat) : Option String :=
  match dictGet palette (toString i) with
  | none => none
  | some hex_code =>
      if hex_code = "" then none
      else some ("palette = " ++ toString i ++ "=" ++ hex_code)

/-- The `not hex_code` test of the palette loop: true exactly when index
`i` is skipped with a missing-index warning. -/
def palette_missing (palette : List (String × String)) (i : Nat) : Bool :=
  match dictGet palette (toString i) with
  | none => true
  | some hex_code => hex_code = ""

/-- The scalar pass of `convert_theme_to_conf`: one `key = value` line
per top-level entry, skipping the key `palette`. -/
def scalar_lines (theme_data : ThemeDoc) : List String :=
  theme_data.filterMap (fun kv =>
    if kv.1 = "palette" then none
    else some (kv.1 ++ " = " ++ pyStrOfJValue kv.2))

/-- The full line list built by `convert_theme_to_conf`: palette lines
for indices 0..15 in ascending order, then the scalar lines. -/
def conv_lines (theme_data : ThemeDoc) : List String :=
  (List.range 16).filterMap (palette_line_of (paletteOf theme_data)) ++
    scalar_lines theme_data

/-- Python `"\n".join`. -/
def joinWithNewline : List String → String
  | [] => ""
  | [l] => l
  | l :: ls => l ++ "\n" ++ joinWithNewline ls

/-- Translation of `convert_theme_to_conf`: the returned flat
configuration string (lines joined by newlines, plus one trailing
newline). -/
def convert_theme_to_conf (theme_data : ThemeDoc) : String :=
  joinWithNewline (conv_lines theme_data) ++ "\n"

/-- The palette indices for which `convert_theme_to_conf` prints a
missing-index warning, in the order the warnings are printed. -/
def convert_warnings (theme_data : ThemeDoc) : List Nat :=
  (List.range 16).filter (fun i => palette_missing (paletteOf theme_data) i)

/-- Removal of a key from a mapping; used to compare a present-but-empty
palette entry with a genuinely absent one. -/
def eraseKey (m : List (String × String)) (k : String) : List (String × String) :=
  m.filter (fun p => p.1 != k)

/-! ### The interactive prompts -/

/-- Python `str.isspace` on the ASCII whitespace characters stripped by
`str.strip()`. -/
def pyIsSpace (c : Char) : Bool :=
  c = ' ' || c = '\t' || c = '\n' || c = '\r' || c = '\x0b' || c = '\x0c'

/-- Python `str.strip()` with no argument. -/
def pyStrip (s : String) : String :=
  String.mk (((s.data.dropWhile pyIsSpace).reverse.dropWhile pyIsSpace).reverse)

/-- Python `str.lower()` (ASCII; every string the claims exercise is
ASCII). -/
def pyLower (s : String) : String :=
  String.mk (s.data.map Char.toLower)

/-- The blacklist checked by `get_theme_name`:
`[' ', '/', '\\', '.', ':', '*', '?', '"', '<', '>', '|']`. -/
def invalid_filename_chars : List Char :=
  [' ', '/', '\\', '.', ':', '*', '?', '"', '<', '>', '|']

/-- The sanitisation join of `get_theme_name`: a character is kept when
alphanumeric or `-`/`_`, and replaced by `_` otherwise. -/
def sanitize_char (c : Char) : Char :=
  if c.isAlphanum || c = '-' || c = '_' then c else '_'

/-- Python `"".join(c if c.isalnum() or c in [...] else for c in s)`. -/
def sanitize (s : String) : String :=
  String.mk (s.data.map sanitize_char)

/-- One iteration of the `get_theme_name` loop on one raw input line:
`some name` when the line is accepted (returning the sanitised name) and
`none` when it is rejected and the operator is re-prompted. -/
def get_theme_name_step (raw : String) : Option String :=
  let theme_name := pyLower (pyStrip raw)
  if theme_name = "" then none
  else if invalid_filename_chars.any (fun c => theme_name.data.contains c) then none
  else some (sanitize theme_name)

/-! ### The privileged writer -/

/-- Outcome of one run of the writer, matching the states of the design
note: `done` (file installed), `aborted` (operator declined the sudo
prompt), `failed` (an elevated command exited non-zero; the message
reports which and with what status), `errored` (a non-permission
filesystem error, outside the escalation path). -/
inductive SaveOutcome where
  | done : SaveOutcome
  | aborted : SaveOutcome
  | failed : String → SaveOutcome
  | errored : String → SaveOutcome
  deriving DecidableEq

/-- Result of a filesystem call (`os.makedirs` / `open`+`write`): success,
a permission-denied `OSError` (`PermissionError` or `errno == 13`), or any
other `OSError`. -/
inductive FsResult where
  | ok : FsResult
  | permErr : FsResult
  | otherErr : FsResult
  deriving DecidableEq

/-- Observable trace of one writer run: terminal outcome, the elevated
(`sudo`) commands invoked in order, whether deletion of the temporary
file was attempted, whether the temporary file still exists at the end,
and the final path written on success. -/
structure WriterRun where
  outcome : SaveOutcome
  commands : List (List String)
  removeAttempted : Bool
  tmpExists : Bool
  finalPath : Option String
  deriving DecidableEq

/-- The directory targeted by the unprivileged write in
`save_conf_to_ghostty`. -/
def ghostty_themes_dir : String :=
  "/Applications/Ghostty.app/Contents/Resources/themes"

/-- The file path targeted by the unprivileged write:
`os.path.join(ghostty_themes_dir, theme_name.lower())`. -/
def ghostty_conf_path (theme_name : String) : String :=
  ghostty_themes_dir ++ "/" ++ pyLower theme_name

/-- The directory targeted by the escalated path in
`prompt_and_attempt_sudo_save` (note the extra `ghostty` component,
absent from `ghostty_themes_dir`). -/
def sudo_ghostty_themes_dir : String :=
  "/Applications/Ghostty.app/Contents/Resources/ghostty/themes"

/-- The final path targeted by the escalated `sudo mv`. -/
def sudo_target_path (theme_name : String) : String :=
  sudo_ghostty_themes_dir ++ "/" ++ pyLower theme_name

/-- Translation of `_attempt_save_with_sudo` (the Python name carries a
leading underscore).  `mkdirExit` and `mvExit` are the exit codes of the
two elevated commands; `removeOk` tells whether the best-effort
`os.remove` of the temporary file succeeds on the failing-move path
(its `OSError` is swallowed by the code).  The temporary file is created
only after the elevated mkdir succeeds, and is consumed by a successful
move. -/
def attempt_save_with_sudo (conf_content dir_path file_path tmp_path : String)
    (mkdirExit mvExit : Int) (removeOk : Bool) : WriterRun :=
  let _ := conf_content
  let mkdir_cmd := ["sudo", "mkdir", "-p", dir_path]
  if mkdirExit ≠ 0 then
    ⟨.failed ("sudo mkdir returned non-zero exit status " ++ toString mkdirExit),
      [mkdir_cmd], false, false, none⟩
  else
    let mv_cmd := ["sudo", "mv", tmp_path, file_path]
    if mvExit ≠ 0 then
      ⟨.failed ("sudo mv returned non-zero exit status " ++ toString mvExit),
        [mkdir_cmd, mv_cmd], true, !removeOk, none⟩
    else
      ⟨.done, [mkdir_cmd, mv_cmd], false, false, some file_path⟩

/-- Translation of `prompt_and_attempt_sudo_save`: the consent line
`resp_raw` is stripped and lowercased; anything but exactly `"y"` aborts
without running a command.  The `RuntimeError` raised by a failing
elevated command is caught here and reported, which is the `failed`
outcome of the run. -/
def prompt_and_attempt_sudo_save (theme_name conf_content resp_raw tmp_path : String)
    (mkdirExit mvExit : Int) (removeOk : Bool) : WriterRun :=
  if pyLower (pyStrip resp_raw) ≠ "y" then
    ⟨.aborted, [], false, false, none⟩
  else
    attempt_save_with_sudo conf_content sudo_ghostty_themes_dir
      (sudo_target_path theme_name) tmp_path mkdirExit mvExit removeOk

/-- Translation of `save_conf_to_ghostty`: try `os.makedirs` then the
direct write; a permission-denied failure of either routes to
`prompt_and_attempt_sudo_save`, any other `OSError`/`IOError` just
reports and returns. -/
def save_conf_to_ghostty (theme_name conf_content resp_raw tmp_path : String)
    (mkdirRes writeRes : FsResult) (mkdirExit mvExit : Int) (removeOk : Bool) :
    WriterRun :=
  match mkdirRes with
  | .permErr =>
      prompt_and_attempt_sudo_save theme_name conf_content resp_raw tmp_path
        mkdirExit mvExit removeOk
  | .otherErr => ⟨.errored "makedirs-oserror", [], false, false, none⟩
  | .ok =>
      match writeRes with
      | .ok => ⟨.done, [], false, false, some (ghostty_conf_path theme_name)⟩
      | .permErr =>
          prompt_and_attempt_sudo_save theme_name conf_content resp_raw tmp_path
            mkdirExit mvExit removeOk
      | .otherErr => ⟨.errored "write-ioerror", [], false, false, none⟩

/-! ### Generation and the main pipeline -/

/-- Translation of `generate_ghostty_theme_json`.  The network call and
`json.loads` are external: `apiResponse` is the outcome of the chat
completion (`Except.error` for the generic communication failure caught
by the broad `except`), and `jsonParse` is the outcome of `json.loads`
on a response string (`none` on `JSONDecodeError`).  Both failure
branches print a diagnostic and return `None`. -/
def generate_ghostty_theme_json (jsonParse : String → Option ThemeDoc)
    (apiResponse : Except String String) : Option ThemeDoc :=
  match apiResponse with
  | .error _ => none
  | .ok theme_json_string =>
      match jsonParse theme_json_string with
      | none => none
      | some theme_data => some theme_data

/-- Translation of `save_theme_to_file`: the pretty-printed JSON file at
`themes/ghostty/<name>.json`, or `none` when the directory creation or
the write fails. -/
def save_theme_to_file (theme_name : String) (dirRes : FsResult) (writeOk : Bool) :
    Option String :=
  match dirRes with
  | .ok =>
      if writeOk then some ("themes/ghostty/" ++ theme_name ++ ".json") else none
  | _ => none

/-- Observable trace of `main` after the theme name is read: the result
of the generation step, the JSON file written (if any), and the writer
run (if reached). -/
structure MainRun where
  theme_data : Option ThemeDoc
  saved_json_path : Option String
  conf_save : Option WriterRun
  deriving DecidableEq

/-- Translation of the tail of `main`: when generation yields a document
it is saved as JSON, converted, and handed to the writer; when generation
yields `None` both persistence steps are skipped. -/
def mainRun (jsonParse : String → Option ThemeDoc) (apiResponse : Except String String)
    (theme_name resp_raw tmp_path : String) (jsonDirRes : FsResult)
    (jsonWriteOk : Bool) (mkdirRes writeRes : FsResult) (mkdirExit mvExit : Int)
    (removeOk : Bool) : MainRun :=
  match generate_ghostty_theme_json jsonParse apiResponse with
  | some theme_data =>
      let conf_content := convert_theme_to_conf theme_data
      ⟨some theme_data,
        save_theme_to_file theme_name jsonDirRes jsonWriteOk,
        some (save_conf_to_ghostty theme_name conf_content resp_raw tmp_path
          mkdirRes writeRes mkdirExit mvExit removeOk)⟩
  | none => ⟨none, none, none⟩

/-! ### Helper lemmas -/

@[simp] theorem dictGet_nil {α : Type} (k : String) :
    dictGet ([] : List (String × α)) k = none := rfl

@[simp] theorem dictGet_cons {α : Type} (p : String × α) (l : List (String × α))
    (k : String) :
    dictGet (p :: l) k = if p.1 = k then some p.2 else dictGet l k := rfl

theorem dictGet_eraseKey_self (m : List (String × String)) (k : String) :
    dictGet (eraseKey m k) k = none := by
  induction m with
  | nil => rfl
  | cons p rest ih =>
      by_cases h : p.1 = k
      · simpa [eraseKey, List.filter_cons, h] using ih
      · simpa [eraseKey, List.filter_cons, h] using ih

theorem dictGet_eraseKey_ne (m : List (String × String)) (k k2 : String)
    (h : k2 ≠ k) : dictGet (eraseKey m k) k2 = dictGet m k2 := by
  induction m with
  | nil => rfl
  | cons p rest ih =>
      by_cases hp : p.1 = k
      · have hpk2 : p.1 ≠ k2 := fun hk => h (hk ▸ hp)
        have he : eraseKey (p :: rest) k = eraseKey rest k := by
          simp [eraseKey, List.filter_cons, hp]
        rw [he, ih, dictGet_cons, if_neg hpk2]
      · have he : eraseKey (p :: rest) k = p :: eraseKey rest k := by
          simp [eraseKey, List.filter_cons, hp]
        rw [he, dictGet_cons, dictGet_cons, ih]

theorem toString_nat_inj16 :
    ∀ i, i < 16 → ∀ j, j < 16 → (toString i = toString j ↔ i = j) := by decide

theorem paletteOf_cons_palette (m : List (String × String)) (rest : ThemeDoc) :
    paletteOf (("palette", JValue.jobj m) :: rest) = m := by
  simp [paletteOf, dictGet]

theorem scalar_lines_cons_palette (v : JValue) (rest : ThemeDoc) :
    scalar_lines (("palette", v) :: rest) = scalar_lines rest := by
  simp [scalar_lines]

theorem dictGet_mem {α : Type} {m : List (String × α)} {k : String} {v : α}
    (h : dictGet m k = some v) : (k, v) ∈ m := by
  induction m with
  | nil => simp at h
  | cons p rest ih =>
      rw [dictGet_cons] at h
      by_cases hp : p.1 = k
      · rw [if_pos hp] at h
        have hv : p.2 = v := Option.some.inj h
        have hkv : p = (k, v) := by rw [← hp, ← hv]
        subst hkv
        exact List.mem_cons_self _ _
      · rw [if_neg hp] at h
        exact List.mem_cons_of_mem _ (ih h)

/-! ### Claims about the converter on concrete documents -/

/-- The example document of the spec: palette indices 0 and 1 present,
2..15 absent, plus one scalar `background` entry. -/
def exampleDoc : ThemeDoc :=
  [("palette", JValue.jobj [("0", "#111111"), ("1", "#ff0000")]),
   ("background", JValue.jstr "#111111")]

/-- C2, counterexample: on the example document, `convert_theme_to_conf`
logs one warning for each of the 14 absent indices 2..15 — not 13 as the
claim states. -/
theorem example_doc_not_thirteen_warnings :
    convert_warnings exampleDoc = [2, 3, 4, 5, 6, 7, 8, 9, 10, 11, 12, 13, 14, 15] ∧
    (convert_warnings exampleDoc).length ≠ 13 := by decide

/-- C2, amended: the example document converts to exactly the two
palette lines for indices 0 and 1 in that order, then the `background`
line, ending with a newline, with exactly 14 missing-index warnings. -/
theorem example_doc_conversion :
    convert_theme_to_conf exampleDoc =
      "palette = 0=#111111\npalette = 1=#ff0000\nbackground = #111111\n" ∧
    (convert_warnings exampleDoc).length = 14 := by decide

/-! ### Claim C9: present-but-empty palette entries behave like absent ones -/

/-- C9: a palette index whose value is present but the empty string is
treated exactly like an absent index: the conversion output and the
warning list are the same as for the document with that entry removed,
and the index is warned about. In particular no `palette = i=` line is
ever emitted for it. -/
theorem empty_palette_value_like_absent (m : List (String × String))
    (rest : ThemeDoc) (i : Nat) (hi : i < 16)
    (hv : dictGet m (toString i) = some "") :
    convert_theme_to_conf (("palette", JValue.jobj m) :: rest)
      = convert_theme_to_conf
          (("palette", JValue.jobj (eraseKey m (toString i))) :: rest) ∧
    convert_warnings (("palette", JValue.jobj m) :: rest)
      = convert_warnings
          (("palette", JValue.jobj (eraseKey m (toString i))) :: rest) ∧
    i ∈ convert_warnings (("palette", JValue.jobj m) :: rest) := by
  have hline : ∀ j ∈ List.range 16,
      palette_line_of m j = palette_line_of (eraseKey m (toString i)) j := by
    intro j hj
    rcases eq_or_ne j i with rfl | hne
    · simp [palette_line_of, hv, dictGet_eraseKey_self]
    · have : toString j ≠ toString i := by
        intro h
        exact hne ((toString_nat_inj16 j (List.mem_range.mp hj) i hi).mp h)
      simp [palette_line_of, dictGet_eraseKey_ne m (toString i) (toString j) this]
  have hmiss : ∀ j ∈ List.range 16,
      palette_missing m j = palette_missing (eraseKey m (toString i)) j := by
    intro j hj
    rcases eq_or_ne j i with rfl | hne
    · simp [palette_missing, hv, dictGet_eraseKey_self]
    · have : toString j ≠ toString i := by
        intro h
        exact hne ((toString_nat_inj16 j (List.mem_range.mp hj) i hi).mp h)
      simp [palette_missing, dictGet_eraseKey_ne m (toString i) (toString j) this]
  refine ⟨?_, ?_, ?_⟩
  · unfold convert_theme_to_conf conv_lines
    rw [paletteOf_cons_palette, paletteOf_cons_palette,
      scalar_lines_cons_palette, scalar_lines_cons_palette,
      List.filterMap_congr hline]
  · unfold convert_warnings
    rw [paletteOf_cons_palette, paletteOf_cons_palette, List.filter_congr hmiss]
  · unfold convert_warnings
    rw [paletteOf_cons_palette]
    refine List.mem_filter.mpr ⟨List.mem_range.mpr hi, ?_⟩
    simp [palette_missing, hv]

/-- Witness for C9 at the concrete palette `{"3": ""}`. -/
theorem empty_palette_value_like_absent_witness :
    (3 < 16 ∧ dictGet [("3", "")] (toString 3) = some "") ∧
    (convert_theme_to_conf [("palette", JValue.jobj [("3", "")])]
        = convert_theme_to_conf
            [("palette", JValue.jobj (eraseKey [("3", "")] (toString 3)))] ∧
      convert_warnings [("palette", JValue.jobj [("3", "")])]
        = convert_warnings
            [("palette", JValue.jobj (eraseKey [("3", "")] (toString 3)))] ∧
      3 ∈ convert_warnings [("palette", JValue.jobj [("3", "")])]) :=
  ⟨⟨by decide, by decide⟩,
    empty_palette_value_like_absent [("3", "")] [] 3 (by decide) (by decide)⟩

/-! ### Claim C3: the two write paths target different directories -/

/-- C3 is violated by the code: the unprivileged write of
`save_conf_to_ghostty` targets `/Applications/Ghostty.app/Contents/Resources/themes`,
while the escalated path of `prompt_and_attempt_sudo_save` moves the
temporary file under `/Applications/Ghostty.app/Contents/Resources/ghostty/themes`
— a different directory, so the two attempts do not agree on the final
path. Evaluated here at the theme name "dracula" on both success
routes. -/
theorem sudo_path_differs_from_unprivileged_path :
    ghostty_conf_path "dracula"
        = "/Applications/Ghostty.app/Contents/Resources/themes/dracula" ∧
    sudo_target_path "dracula"
        = "/Applications/Ghostty.app/Contents/Resources/ghostty/themes/dracula" ∧
    ghostty_conf_path "dracula" ≠ sudo_target_path "dracula" ∧
    (save_conf_to_ghostty "dracula" "c" "y" "/tmp/t"
        FsResult.ok FsResult.ok 0 0 true).finalPath
      = some (ghostty_conf_path "dracula") ∧
    (save_conf_to_ghostty "dracula" "c" "y" "/tmp/t"
        FsResult.permErr FsResult.ok 0 0 true).finalPath
      = some (sudo_target_path "dracula") := by decide

/-! ### Claim C4: negative consent aborts with no elevated command -/

/-- C4: when the initial attempt fails with permission denied (in either
`os.makedirs` or the write) and the consent response is non-affirmative,
the run terminates in the `aborted` state with an empty elevated-command
trace, no temporary file, and nothing written. -/
theorem consent_denied_aborts (theme_name conf_content resp_raw tmp_path : String)
    (mkdirRes writeRes : FsResult) (mkdirExit mvExit : Int) (removeOk : Bool)
    (hperm : mkdirRes = FsResult.permErr ∨
      (mkdirRes = FsResult.ok ∧ writeRes = FsResult.permErr))
    (hresp : pyLower (pyStrip resp_raw) ≠ "y") :
    save_conf_to_ghostty theme_name conf_content resp_raw tmp_path mkdirRes
        writeRes mkdirExit mvExit removeOk
      = ⟨SaveOutcome.aborted, [], false, false, none⟩ := by
  rcases hperm with h | ⟨h1, h2⟩ <;> subst_vars <;>
    simp [save_conf_to_ghostty, prompt_and_attempt_sudo_save, hresp]

/-- Witness for C4: permission denied on the directory creation, consent
response `" N "`. -/
theorem consent_denied_aborts_witness :
    pyLower (pyStrip " N ") ≠ "y" ∧
    save_conf_to_ghostty "dracula" "conf" " N " "/tmp/x"
        FsResult.permErr FsResult.ok 0 0 true
      = ⟨SaveOutcome.aborted, [], false, false, none⟩ :=
  ⟨by decide,
    consent_denied_aborts "dracula" "conf" " N " "/tmp/x"
      FsResult.permErr FsResult.ok 0 0 true (Or.inl rfl) (by decide)⟩

/-! ### Claim C5: a failing elevated move fails and cleans the temp file -/

/-- C5: after a permission-denied initial attempt and affirmative
consent, when the elevated mkdir succeeds and the elevated move exits
non-zero, the run terminates in the `failed` state reporting the move's
exit status, deletion of the temporary file is attempted, and (the
best-effort `os.remove` having succeeded, its errors being ignored
otherwise) the temporary file no longer exists. -/
theorem failing_move_fails_and_removes_tmp
    (theme_name conf_content resp_raw tmp_path : String)
    (mkdirRes writeRes : FsResult) (mkdirExit mvExit : Int) (removeOk : Bool)
    (hperm : mkdirRes = FsResult.permErr ∨
      (mkdirRes = FsResult.ok ∧ writeRes = FsResult.permErr))
    (hresp : pyLower (pyStrip resp_raw) = "y")
    (hmk : mkdirExit = 0) (hmv : mvExit ≠ 0) (hrm : removeOk = true) :
    save_conf_to_ghostty theme_name conf_content resp_raw tmp_path mkdirRes
        writeRes mkdirExit mvExit removeOk
      = ⟨SaveOutcome.failed ("sudo mv returned non-zero exit status " ++ toString mvExit),
          [["sudo", "mkdir", "-p", sudo_ghostty_themes_dir],
           ["sudo", "mv", tmp_path, sudo_target_path theme_name]],
          true, false, none⟩ := by
  rcases hperm with h | ⟨h1, h2⟩ <;> subst_vars <;>
    simp [save_conf_to_ghostty, prompt_and_attempt_sudo_save,
      attempt_save_with_sudo, hresp, hmv]

/-- Witness for C5: permission denied on the write, consent `"y"`,
elevated mkdir exits 0, elevated move exits 1. -/
theorem failing_move_fails_and_removes_tmp_witness :
    (pyLower (pyStrip "y") = "y" ∧ (0 : Int) = 0 ∧ (1 : Int) ≠ 0) ∧
    save_conf_to_ghostty "dracula" "conf" "y" "/tmp/x"
        FsResult.ok FsResult.permErr 0 1 true
      = ⟨SaveOutcome.failed ("sudo mv returned non-zero exit status " ++ toString (1 : Int)),
          [["sudo", "mkdir", "-p", sudo_ghostty_themes_dir],
           ["sudo", "mv", "/tmp/x", sudo_target_path "dracula"]],
          true, false, none⟩ :=
  ⟨⟨by decide, rfl, by decide⟩,
    failing_move_fails_and_removes_tmp "dracula" "conf" "y" "/tmp/x"
      FsResult.ok FsResult.permErr 0 1 true (Or.inr ⟨rfl, rfl⟩) (by decide) rfl
      (by decide) rfl⟩

/-! ### Claim C10: only a stripped, lowercased "y" is affirmative -/

/-- C10: the consent prompt aborts with no elevated command exactly when
the response, stripped and lowercased, differs from the single letter
`"y"`; any affirmative run invokes at least the elevated mkdir. -/
theorem consent_affirmative_iff_y
    (theme_name conf_content resp_raw tmp_path : String)
    (mkdirExit mvExit : Int) (removeOk : Bool) :
    prompt_and_attempt_sudo_save theme_name conf_content resp_raw tmp_path
        mkdirExit mvExit removeOk
      = ⟨SaveOutcome.aborted, [], false, false, none⟩
    ↔ pyLower (pyStrip resp_raw) ≠ "y" := by
  constructor
  · intro h hy
    rw [prompt_and_attempt_sudo_save, if_neg (by simpa using hy)] at h
    unfold attempt_save_with_sudo at h
    by_cases hmk : mkdirExit ≠ 0
    · rw [if_pos hmk] at h
      exact absurd (congrArg WriterRun.commands h) (by simp)
    · rw [if_neg hmk] at h
      by_cases hmv : mvExit ≠ 0
      · rw [if_pos hmv] at h
        exact absurd (congrArg WriterRun.commands h) (by simp)
      · rw [if_neg hmv] at h
        exact absurd (congrArg WriterRun.commands h) (by simp)
  · intro h
    simp [prompt_and_attempt_sudo_save, h]

/-- Witness for C10: the response `"yes"` is non-affirmative and leads to
the aborted state with no elevated command. -/
theorem consent_yes_is_not_affirmative :
    prompt_and_attempt_sudo_save "dracula" "conf" "yes" "/tmp/x" 0 0 true
      = ⟨SaveOutcome.aborted, [], false, false, none⟩ :=
  (consent_affirmative_iff_y "dracula" "conf" "yes" "/tmp/x" 0 0 true).mpr
    (by decide)

/-! ### Claim C8: invalid generated JSON skips both persistence steps -/

/-- C8: when the model response is not valid JSON (`json.loads` yields
nothing), generation returns `None` and the main pipeline writes neither
the pretty-printed JSON file nor the flat configuration file. -/
theorem invalid_json_skips_persistence (jsonParse : String → Option ThemeDoc)
    (s theme_name resp_raw tmp_path : String) (jsonDirRes : FsResult)
    (jsonWriteOk : Bool) (mkdirRes writeRes : FsResult)
    (mkdirExit mvExit : Int) (removeOk : Bool)
    (hparse : jsonParse s = none) :
    generate_ghostty_theme_json jsonParse (Except.ok s) = none ∧
    mainRun jsonParse (Except.ok s) theme_name resp_raw tmp_path jsonDirRes
        jsonWriteOk mkdirRes writeRes mkdirExit mvExit removeOk
      = ⟨none, none, none⟩ := by
  refine ⟨?_, ?_⟩ <;> simp [mainRun, generate_ghostty_theme_json, hparse]

/-- Witness for C8 with a parser that rejects every string. -/
theorem invalid_json_skips_persistence_witness :
    generate_ghostty_theme_json (fun _ => none) (Except.ok "not json") = none ∧
    mainRun (fun _ => none) (Except.ok "not json") "dracula" "y" "/tmp/x"
        FsResult.ok true FsResult.ok FsResult.ok 0 0 true
      = ⟨none, none, none⟩ :=
  invalid_json_skips_persistence (fun _ => none) "not json" "dracula" "y"
    "/tmp/x" FsResult.ok true FsResult.ok FsResult.ok 0 0 true rfl

/-! ### Claim C7: which theme-name inputs are rejected -/

/-- C7, counterexample: the input `"foo!"` contains `!`, a character that
is neither a letter, digit, `-` nor `_`, yet it is not rejected: the
prompt accepts it and silently returns the altered name `"foo_"`. -/
theorem theme_name_invalid_char_not_rejected :
    get_theme_name_step "foo!" = some "foo_" ∧
    ("foo!".data.any (fun c => !(c.isAlphanum || c = '-' || c = '_'))) = true ∧
    pyLower (pyStrip "foo!") = "foo!" ∧ "foo_" ≠ "foo!" := by decide

/-- C7, amended: one round of `get_theme_name` rejects the raw input and
re-prompts exactly when the stripped, lowercased input is empty or
contains one of the blacklisted characters
`' ' / \ . : * ? " < > |`; every other input is accepted, with each
remaining character outside letters, digits, `-`, `_` silently replaced
by `_` rather than rejected. -/
theorem theme_name_step_spec (raw : String) :
    (get_theme_name_step raw = none ↔
      (pyLower (pyStrip raw) = "" ∨
        invalid_filename_chars.any
          (fun c => (pyLower (pyStrip raw)).data.contains c) = true)) ∧
    (∀ s, get_theme_name_step raw = some s →
      s = sanitize (pyLower (pyStrip raw))) := by
  by_cases h1 : pyLower (pyStrip raw) = ""
  · simp [get_theme_name_step, h1]
  · by_cases h2 : invalid_filename_chars.any
        (fun c => (pyLower (pyStrip raw)).data.contains c) = true
    · simp [get_theme_name_step, h1, h2]
    · simp only [Bool.not_eq_true] at h2
      simp [get_theme_name_step, h1, h2]

/-- Witness for C7's amended claim: the raw input `" A! "` is accepted
and maps to `sanitize (pyLower (pyStrip " A! ")) = "a_"`. -/
theorem theme_name_step_spec_witness :
    "a_" = sanitize (pyLower (pyStrip " A! ")) :=
  (theme_name_step_spec " A! ").2 "a_" (by decide)

/-! ### Claim C1: complete palettes convert to 16 ordered lines -/

theorem paletteOf_eq {theme_data : ThemeDoc} {m : List (String × String)}
    (hpal : dictGet theme_data "palette" = some (JValue.jobj m)) :
    paletteOf theme_data = m := by
  unfold paletteOf
  rw [hpal]

/-- The sixteen palette lines in ascending index order, as emitted for a
complete palette. -/
def complete_palette_lines (m : List (String × String)) : List String :=
  (List.range 16).map
    (fun i => "palette = " ++ toString i ++ "=" ++ ((dictGet m (toString i)).getD ""))

theorem filterMap_palette_line_of_complete (m : List (String × String))
    (l : List Nat) (h : ∀ i ∈ l, palette_missing m i = false) :
    l.filterMap (palette_line_of m)
      = l.map (fun i =>
          "palette = " ++ toString i ++ "=" ++ ((dictGet m (toString i)).getD "")) := by
  induction l with
  | nil => rfl
  | cons a t ih =>
      have ha := h a (List.mem_cons_self a t)
      have ht : ∀ i ∈ t, palette_missing m i = false :=
        fun i hi => h i (List.mem_cons_of_mem a hi)
      rcases hget : dictGet m (toString a) with _ | v
      · rw [palette_missing, hget] at ha
        simp at ha
      · have hv : v ≠ "" := by
          rw [palette_missing, hget] at ha
          simpa using ha
        simp [List.filterMap_cons, List.map_cons, palette_line_of, hget, hv, ih ht]

/-- C1: for a theme document whose palette mapping has all 16 indices
present with non-empty values, the converter emits exactly the 16
`palette = i=<value>` lines in strictly ascending index order 0..15
(none skipped, no warning logged), followed by one `key = value` line
for each remaining top-level key except `palette` in the mapping's
iteration order, and appends exactly one trailing newline after the last
line. -/
theorem complete_palette_conversion (theme_data : ThemeDoc)
    (m : List (String × String))
    (hpal : dictGet theme_data "palette" = some (JValue.jobj m))
    (hfull : ∀ i, i < 16 → palette_missing m i = false) :
    convert_theme_to_conf theme_data
      = joinWithNewline
          (complete_palette_lines m ++
            theme_data.filterMap (fun kv =>
              if kv.1 = "palette" then none
              else some (kv.1 ++ " = " ++ pyStrOfJValue kv.2))) ++ "\n" ∧
    convert_warnings theme_data = [] := by
  constructor
  · unfold convert_theme_to_conf conv_lines complete_palette_lines
    rw [paletteOf_eq hpal,
      filterMap_palette_line_of_complete m (List.range 16)
        (fun i hi => hfull i (List.mem_range.mp hi))]
    rfl
  · unfold convert_warnings
    rw [paletteOf_eq hpal]
    refine List.filter_eq_nil_iff.mpr ?_
    intro i hi
    simp [hfull i (List.mem_range.mp hi)]

/-- A concrete complete 16-entry palette (insertion order deliberately
not ascending). -/
def fullPalette : List (String × String) :=
  [("15", "#fffff0"), ("0", "#000000"), ("1", "#111111"), ("2", "#222222"),
   ("3", "#333333"), ("4", "#444444"), ("5", "#555555"), ("6", "#666666"),
   ("7", "#777777"), ("8", "#888888"), ("9", "#999999"), ("10", "#aaaaaa"),
   ("11", "#bbbbbb"), ("12", "#cccccc"), ("13", "#dddddd"), ("14", "#eeeeee")]

/-- A concrete document with a complete palette and two scalar fields. -/
def fullPaletteDoc : ThemeDoc :=
  [("palette", JValue.jobj fullPalette),
   ("background", JValue.jstr "#101010"),
   ("foreground", JValue.jstr "#f0f0f0")]

/-- Witness for C1 at a concrete complete-palette document. -/
theorem complete_palette_conversion_witness :
    (dictGet fullPaletteDoc "palette" = some (JValue.jobj fullPalette) ∧
      ∀ i, i < 16 → palette_missing fullPalette i = false) ∧
    (convert_theme_to_conf fullPaletteDoc
        = joinWithNewline
            (complete_palette_lines fullPalette ++
              fullPaletteDoc.filterMap (fun kv =>
                if kv.1 = "palette" then none
                else some (kv.1 ++ " = " ++ pyStrOfJValue kv.2))) ++ "\n" ∧
      convert_warnings fullPaletteDoc = []) :=
  ⟨⟨rfl, by decide⟩,
    complete_palette_conversion fullPaletteDoc fullPalette rfl (by decide)⟩

/-! ### Claim C6: round-trip through the flat format

The spec's round-trip property re-parses the flat output.  The parser
below is modelled from the spec's words (the flat configuration format
of the glossary: one `key = value` entry per line, where a `palette`
line carries an `index=color` pair): split the output at newlines, drop
blank lines, split each line at the first ` = `, and split the value of
a `palette` line at the first `=` into an index/color pair. -/

/-- Split a character list at every occurrence of the character `c`
(the pieces do not contain `c`). -/
def splitOnChar (c : Char) : List Char → List (List Char)
  | [] => [[]]
  | x :: xs =>
      let r := splitOnChar c xs
      if x = c then [] :: r
      else
        match r with
        | [] => [[x]]
        | y :: ys => (x :: y) :: ys

/-- Whether the first list is a prefix of the second. -/
def leadsWith : List Char → List Char → Bool
  | [], _ => true
  | _ :: _, [] => false
  | a :: as, b :: bs => a == b && leadsWith as bs

/-- Split a character list at the first occurrence of the separator
`sep`, returning the parts before and after it. -/
def splitFirstSep (sep : List Char) : List Char → Option (List Char × List Char)
  | [] => none
  | x :: xs =>
      if leadsWith sep (x :: xs) then some ([], (x :: xs).drop sep.length)
      else
        match splitFirstSep sep xs with
        | none => none
        | some (a, b) => some (x :: a, b)

/-- Parse one line of the flat format: `some (true, i, c)` for a
palette line `palette = i=c`, `some (false, k, v)` for a scalar line
`k = v`, `none` for an unparsable line. -/
def parse_conf_line (l : List Char) : Option (Bool × String × String) :=
  match splitFirstSep [' ', '=', ' '] l with
  | none => none
  | some (k, v) =>
      if k = "palette".data then
        match splitFirstSep ['='] v with
        | none => none
        | some (i, c) => some (true, String.mk i, String.mk c)
      else some (false, String.mk k, String.mk v)

/-- Parse a list of lines into the recovered palette pairs and the
recovered scalar pairs, each in line order. -/
def parse_conf_pairs : List (List Char) →
    List (String × String) × List (String × String)
  | [] => ([], [])
  | l :: ls =>
      let rest := parse_conf_pairs ls
      match parse_conf_line l with
      | some (true, k, v) => ((k, v) :: rest.1, rest.2)
      | some (false, k, v) => (rest.1, (k, v) :: rest.2)
      | none => rest

/-- Parse a flat configuration string back into its palette pairs and
scalar pairs. -/
def parse_conf (s : String) : List (String × String) × List (String × String) :=
  parse_conf_pairs ((splitOnChar '\n' s.data).filter (fun l => !l.isEmpty))

@[simp] theorem string_mk_data (s : String) : String.mk s.data = s := rfl

theorem leadsWith_append (s t : List Char) : leadsWith s (s ++ t) = true := by
  induction s with
  | nil => rfl
  | cons a as ih => simp [leadsWith, ih]

theorem leadsWith_cons_ne (c x : Char) (cs xs : List Char) (h : x ≠ c) :
    leadsWith (c :: cs) (x :: xs) = false := by
  simp [leadsWith, Ne.symm h]

theorem splitFirstSep_append (c : Char) (cs a b : List Char) (ha : c ∉ a) :
    splitFirstSep (c :: cs) (a ++ ((c :: cs) ++ b)) = some (a, b) := by
  induction a with
  | nil =>
      rw [List.nil_append, List.cons_append, splitFirstSep]
      have hlw : leadsWith (c :: cs) (c :: (cs ++ b)) = true := by
        have h0 := leadsWith_append (c :: cs) b
        rwa [List.cons_append] at h0
      rw [if_pos hlw, ← List.cons_append, List.drop_left]
  | cons x xs ih =>
      have hx : x ≠ c := by
        rintro rfl
        exact ha (List.mem_cons_self x xs)
      have hxs : c ∉ xs := fun h => ha (List.mem_cons_of_mem _ h)
      rw [List.cons_append, splitFirstSep,
        leadsWith_cons_ne c x cs (xs ++ ((c :: cs) ++ b)) hx]
      simp only [Bool.false_eq_true, if_false, ih hxs]

theorem splitOnChar_append (c : Char) (l rest : List Char) (h : c ∉ l) :
    splitOnChar c (l ++ c :: rest) = l :: splitOnChar c rest := by
  induction l with
  | nil => simp [splitOnChar]
  | cons x xs ih =>
      have hx : x ≠ c := by
        rintro rfl
        exact h (List.mem_cons_self x xs)
      have hxs : c ∉ xs := fun hm => h (List.mem_cons_of_mem _ hm)
      rw [List.cons_append, splitOnChar]
      simp only [hx, if_false, ih hxs]

/-- Character-level counterpart of `joinWithNewline`. -/
def joinData : List (List Char) → List Char
  | [] => []
  | [l] => l
  | l :: ls => l ++ '\n' :: joinData ls

theorem joinWithNewline_data (L : List String) :
    (joinWithNewline L).data = joinData (L.map String.data) := by
  induction L with
  | nil => rfl
  | cons l ls ih =>
      cases ls with
      | nil => rfl
      | cons l2 ls2 =>
          show (l ++ "\n" ++ joinWithNewline (l2 :: ls2)).data
            = l.data ++ '\n' :: joinData ((l2 :: ls2).map String.data)
          rw [String.data_append, String.data_append, ih]
          simp [List.append_assoc]

theorem splitOnChar_joinData_cons (l : List Char) (ls : List (List Char))
    (h : ∀ x ∈ l :: ls, '\n' ∉ x) :
    splitOnChar '\n' (joinData (l :: ls) ++ ['\n']) = (l :: ls) ++ [[]] := by
  induction ls generalizing l with
  | nil =>
      have hl : '\n' ∉ l := h l (List.mem_cons_self l [])
      show splitOnChar '\n' (l ++ '\n' :: []) = [l, []]
      rw [splitOnChar_append '\n' l [] hl]
      rfl
  | cons l2 ls2 ih =>
      have hl : '\n' ∉ l := h l (List.mem_cons_self _ _)
      have hrest : ∀ x ∈ l2 :: ls2, '\n' ∉ x :=
        fun x hx => h x (List.mem_cons_of_mem _ hx)
      show splitOnChar '\n' ((l ++ '\n' :: joinData (l2 :: ls2)) ++ ['\n'])
        = (l :: l2 :: ls2) ++ [[]]
      rw [List.append_assoc, List.cons_append, splitOnChar_append '\n' l _ hl,
        ih l2 hrest]
      rfl

theorem split_join_filter (L : List (List Char)) (hnl : ∀ l ∈ L, '\n' ∉ l)
    (hne : ∀ l ∈ L, l ≠ []) :
    (splitOnChar '\n' (joinData L ++ ['\n'])).filter (fun l => !l.isEmpty) = L := by
  cases L with
  | nil => rfl
  | cons l ls =>
      rw [splitOnChar_joinData_cons l ls hnl, List.filter_append]
      have h1 : (l :: ls).filter (fun l => !l.isEmpty) = l :: ls := by
        refine List.filter_eq_self.mpr ?_
        intro a ha
        simpa [List.isEmpty_iff] using hne a ha
      rw [h1]
      simp

theorem nat16_sep_chars :
    ∀ i, i < 16 → '=' ∉ (toString i).data ∧ '\n' ∉ (toString i).data := by decide

theorem parse_palette_line (i : Nat) (hi : i < 16) (v : String) :
    parse_conf_line (("palette = " ++ toString i ++ "=" ++ v).data)
      = some (true, toString i, v) := by
  have h0 : ("palette = ").data = "palette".data ++ [' ', '=', ' '] := rfl
  have h1 : ("=").data = ['='] := rfl
  have hone : ("palette = " ++ toString i ++ "=" ++ v).data
      = "palette".data ++
          ([' ', '=', ' '] ++ ((toString i).data ++ (['='] ++ v.data))) := by
    simp only [String.data_append, h0, h1, List.append_assoc, List.cons_append,
      List.nil_append]
  rw [parse_conf_line, hone,
    splitFirstSep_append ' ' ['=', ' '] "palette".data _ (by decide)]
  simp only [if_pos rfl]
  rw [splitFirstSep_append '=' [] (toString i).data v.data (nat16_sep_chars i hi).1]
  simp

theorem parse_scalar_line (k v : String) (hk : ' ' ∉ k.data)
    (hkp : k ≠ "palette") :
    parse_conf_line ((k ++ " = " ++ v).data) = some (false, k, v) := by
  have h0 : (" = ").data = ([' ', '=', ' '] : List Char) := rfl
  have hone : (k ++ " = " ++ v).data
      = k.data ++ ([' ', '=', ' '] ++ v.data) := by
    simp only [String.data_append, h0, List.append_assoc]
  have hkd : k.data ≠ "palette".data := by
    intro h
    exact hkp (by rw [← string_mk_data k, h, string_mk_data])
  rw [parse_conf_line, hone, splitFirstSep_append ' ' ['=', ' '] k.data v.data hk]
  simp [hkd]

theorem parse_conf_pairs_append (A B : List (List Char)) :
    parse_conf_pairs (A ++ B)
      = ((parse_conf_pairs A).1 ++ (parse_conf_pairs B).1,
         (parse_conf_pairs A).2 ++ (parse_conf_pairs B).2) := by
  induction A with
  | nil => simp [parse_conf_pairs]
  | cons l ls ih =>
      rcases hpl : parse_conf_line l with _ | ⟨b, k, v⟩
      · simp [parse_conf_pairs, hpl, ih]
      · cases b <;> simp [parse_conf_pairs, hpl, ih]

/-- The palette key/value pairs that survive conversion: one pair
`(str i, v)` per index `i < 16` present with a non-empty value. -/
def palette_pairs (m : List (String × String)) : List (String × String) :=
  (List.range 16).filterMap (fun i =>
    match dictGet m (toString i) with
    | none => none
    | some v => if v = "" then none else some (toString i, v))

theorem parse_palette_block (m : List (String × String)) (idxs : List Nat)
    (h : ∀ i ∈ idxs, i < 16) :
    parse_conf_pairs ((idxs.filterMap (palette_line_of m)).map String.data)
      = (idxs.filterMap (fun i =>
          match dictGet m (toString i) with
          | none => none
          | some v => if v = "" then none else some (toString i, v)), []) := by
  induction idxs with
  | nil => rfl
  | cons i is ih =>
      have hi := h i (List.mem_cons_self i is)
      have his : ∀ j ∈ is, j < 16 := fun j hj => h j (List.mem_cons_of_mem _ hj)
      rcases hget : dictGet m (toString i) with _ | v
      · simp only [List.filterMap_cons, palette_line_of, hget]
        exact ih his
      · by_cases hv : v = ""
        · simp only [List.filterMap_cons, palette_line_of, hget, if_pos hv]
          exact ih his
        · simp only [List.filterMap_cons, palette_line_of, hget, if_neg hv,
            List.map_cons]
          rw [parse_conf_pairs, parse_palette_line i hi v]
          rw [ih his]

theorem parse_scalar_block (doc : ThemeDoc)
    (hs : ∀ p ∈ doc, p.1 ≠ "palette" → ' ' ∉ p.1.data) :
    parse_conf_pairs ((scalar_lines doc).map String.data)
      = ([], doc.filterMap (fun p =>
          if p.1 = "palette" then none
          else some (p.1, pyStrOfJValue p.2))) := by
  induction doc with
  | nil => rfl
  | cons p rest ih =>
      have hrest : ∀ q ∈ rest, q.1 ≠ "palette" → ' ' ∉ q.1.data :=
        fun q hq => hs q (List.mem_cons_of_mem _ hq)
      by_cases hp : p.1 = "palette"
      · simp only [scalar_lines, List.filterMap_cons, if_pos hp]
        exact ih hrest
      · simp only [scalar_lines, List.filterMap_cons, if_neg hp, List.map_cons]
        rw [parse_conf_pairs,
          parse_scalar_line p.1 (pyStrOfJValue p.2)
            (hs p (List.mem_cons_self p rest) hp) hp]
        rw [show scalar_lines rest
            = rest.filterMap (fun kv =>
                if kv.1 = "palette" then none
                else some (kv.1 ++ " = " ++ pyStrOfJValue kv.2)) from rfl] at ih
        rw [ih hrest]

theorem dictGet_of_mem_nodup {α : Type} {m : List (String × α)}
    (hnodup : (m.map Prod.fst).Nodup) {k : String} {v : α}
    (h : (k, v) ∈ m) : dictGet m k = some v := by
  induction m with
  | nil => cases h
  | cons p rest ih =>
      rw [List.map_cons, List.nodup_cons] at hnodup
      rcases List.mem_cons.mp h with heq | hm
      · rw [← heq, dictGet_cons, if_pos rfl]
      · have hk : k ∈ rest.map Prod.fst := List.mem_map.mpr ⟨(k, v), hm, rfl⟩
        have hp1 : p.1 ≠ k := fun hpk => hnodup.1 (hpk ▸ hk)
        rw [dictGet_cons, if_neg hp1]
        exact ih hnodup.2 hm

theorem mem_palette_pairs_iff (m : List (String × String))
    (hkeys : ∀ p ∈ m, p.1 ∈ (List.range 16).map toString)
    (hvals : ∀ p ∈ m, p.2 ≠ "")
    (hnodup : (m.map Prod.fst).Nodup) (pr : String × String) :
    pr ∈ palette_pairs m ↔ pr ∈ m := by
  constructor
  · intro hpr
    rcases List.mem_filterMap.mp hpr with ⟨i, _, hf⟩
    rcases hget : dictGet m (toString i) with _ | v
    · simp [hget] at hf
    · simp only [hget] at hf
      by_cases hv : v = ""
      · rw [if_pos hv] at hf
        cases hf
      · rw [if_neg hv] at hf
        rw [← Option.some.inj hf]
        exact dictGet_mem hget
  · intro hpr
    obtain ⟨k, v⟩ := pr
    rcases List.mem_map.mp (hkeys (k, v) hpr) with ⟨i, hir, hik⟩
    have hget : dictGet m (toString i) = some v := by
      rw [hik]
      exact dictGet_of_mem_nodup hnodup hpr
    refine List.mem_filterMap.mpr ⟨i, hir, ?_⟩
    simp only [hget]
    rw [if_neg (hvals (k, v) hpr), hik]

/-- A scalar value that round-trips: a plain string with no embedded
newline. -/
def is_clean_scalar : JValue → Bool
  | .jstr s => decide ('\n' ∉ s.data)
  | .jobj _ => false

theorem palette_line_chars (m : List (String × String))
    (hvals : ∀ p ∈ m, p.2 ≠ "" ∧ '\n' ∉ p.2.data) :
    ∀ l ∈ (List.range 16).filterMap (palette_line_of m),
      '\n' ∉ l.data ∧ l.data ≠ [] := by
  intro l hl
  rcases List.mem_filterMap.mp hl with ⟨i, hi, hline⟩
  rcases hget : dictGet m (toString i) with _ | v
  · simp [palette_line_of, hget] at hline
  · simp only [palette_line_of, hget] at hline
    by_cases hv : v = ""
    · rw [if_pos hv] at hline
      cases hline
    · rw [if_neg hv] at hline
      rw [← Option.some.inj hline]
      have hvnl : '\n' ∉ v.data := (hvals _ (dictGet_mem hget)).2
      have hnat := (nat16_sep_chars i (List.mem_range.mp hi)).2
      constructor
      · simp only [String.data_append, List.mem_append, not_or]
        exact ⟨⟨⟨by decide, hnat⟩, by decide⟩, hvnl⟩
      · simp [String.data_append]

theorem scalar_line_chars (doc : ThemeDoc)
    (hscal : ∀ p ∈ doc, p.1 ≠ "palette" →
      ' ' ∉ p.1.data ∧ '\n' ∉ p.1.data ∧ is_clean_scalar p.2 = true) :
    ∀ l ∈ scalar_lines doc, '\n' ∉ l.data ∧ l.data ≠ [] := by
  intro l hl
  rcases List.mem_filterMap.mp hl with ⟨p, hp, hline⟩
  by_cases hpal : p.1 = "palette"
  · simp [hpal] at hline
  · rw [if_neg hpal] at hline
    rcases hscal p hp hpal with ⟨hk1, hk2, hclean⟩
    cases hv : p.2 with
    | jstr s =>
        rw [hv] at hclean
        have hsnl : '\n' ∉ s.data := of_decide_eq_true hclean
        rw [← Option.some.inj hline, hv]
        constructor
        · simp only [pyStrOfJValue, String.data_append, List.mem_append, not_or]
          exact ⟨⟨hk2, by decide⟩, hsnl⟩
        · simp [String.data_append]
    | jobj o =>
        rw [hv] at hclean
        simp [is_clean_scalar] at hclean

/-- C6: for any well-formed theme document — `palette` maps to a
sub-mapping whose keys are decimal index strings `"0"`..`"15"` without
duplicates and whose values are non-empty and newline-free, and every
other entry is a scalar string without embedded newline under a key that
is not `"palette"`, contains no space, and no newline — re-parsing the
flat output of `convert_theme_to_conf` recovers exactly the key/value
pairs of the original document: the recovered palette pairs are exactly
the pairs of the palette sub-mapping (as sets, order aside, since
emission re-orders them by index), and the recovered scalar pairs are
exactly the remaining top-level pairs in their original order. -/
theorem round_trip_conversion (theme_data : ThemeDoc) (m : List (String × String))
    (hpal : dictGet theme_data "palette" = some (JValue.jobj m))
    (hkeys : ∀ p ∈ m, p.1 ∈ (List.range 16).map toString)
    (hvals : ∀ p ∈ m, p.2 ≠ "" ∧ '\n' ∉ p.2.data)
    (hnodup : (m.map Prod.fst).Nodup)
    (hscal : ∀ p ∈ theme_data, p.1 ≠ "palette" →
      ' ' ∉ p.1.data ∧ '\n' ∉ p.1.data ∧ is_clean_scalar p.2 = true) :
    (∀ pr : String × String,
        pr ∈ (parse_conf (convert_theme_to_conf theme_data)).1 ↔ pr ∈ m) ∧
    (parse_conf (convert_theme_to_conf theme_data)).2
      = theme_data.filterMap (fun p =>
          if p.1 = "palette" then none
          else some (p.1, pyStrOfJValue p.2)) := by
  have hparse : parse_conf (convert_theme_to_conf theme_data)
      = (palette_pairs m,
         theme_data.filterMap (fun p =>
           if p.1 = "palette" then none
           else some (p.1, pyStrOfJValue p.2))) := by
    unfold parse_conf convert_theme_to_conf
    have hdata : (joinWithNewline (conv_lines theme_data) ++ "\n").data
        = joinData ((conv_lines theme_data).map String.data) ++ ['\n'] := by
      rw [String.data_append, joinWithNewline_data]
    rw [hdata]
    have hchars : ∀ l ∈ conv_lines theme_data, '\n' ∉ l.data ∧ l.data ≠ [] := by
      intro l hl
      unfold conv_lines at hl
      rcases List.mem_append.mp hl with h | h
      · rw [paletteOf_eq hpal] at h
        exact palette_line_chars m hvals l h
      · exact scalar_line_chars theme_data hscal l h
    have hnl : ∀ ld ∈ (conv_lines theme_data).map String.data, '\n' ∉ ld := by
      intro ld hld
      rcases List.mem_map.mp hld with ⟨l, hl, rfl⟩
      exact (hchars l hl).1
    have hne : ∀ ld ∈ (conv_lines theme_data).map String.data, ld ≠ [] := by
      intro ld hld
      rcases List.mem_map.mp hld with ⟨l, hl, rfl⟩
      exact (hchars l hl).2
    rw [split_join_filter _ hnl hne]
    unfold conv_lines
    rw [paletteOf_eq hpal, List.map_append, parse_conf_pairs_append,
      parse_palette_block m (List.range 16) (fun i hi => List.mem_range.mp hi),
      parse_scalar_block theme_data (fun p hp hnp => (hscal p hp hnp).1)]
    simp [palette_pairs]
  rw [hparse]
  exact ⟨fun pr => mem_palette_pairs_iff m hkeys (fun p hp => (hvals p hp).1)
    hnodup pr, rfl⟩

/-- A concrete palette for the round-trip witness, insertion order not
ascending. -/
def roundTripPalette : List (String × String) :=
  [("1", "#ff0000"), ("0", "#111111")]

/-- A concrete document for the round-trip witness. -/
def roundTripDoc : ThemeDoc :=
  [("palette", JValue.jobj roundTripPalette),
   ("background", JValue.jstr "#101010")]

/-- Witness for C6 at a concrete document, instantiating the recovered
membership at the pair `("0", "#111111")`. -/
theorem round_trip_conversion_witness :
    (dictGet roundTripDoc "palette" = some (JValue.jobj roundTripPalette) ∧
      (∀ p ∈ roundTripPalette, p.1 ∈ (List.range 16).map toString) ∧
      (∀ p ∈ roundTripPalette, p.2 ≠ "" ∧ '\n' ∉ p.2.data) ∧
      (roundTripPalette.map Prod.fst).Nodup ∧
      (∀ p ∈ roundTripDoc, p.1 ≠ "palette" →
        ' ' ∉ p.1.data ∧ '\n' ∉ p.1.data ∧ is_clean_scalar p.2 = true)) ∧
    ((("0", "#111111") ∈ (parse_conf (convert_theme_to_conf roundTripDoc)).1 ↔
        ("0", "#111111") ∈ roundTripPalette) ∧
      (parse_conf (convert_theme_to_conf roundTripDoc)).2
        = roundTripDoc.filterMap (fun p =>
            if p.1 = "palette" then none
            else some (p.1, pyStrOfJValue p.2))) :=
  ⟨⟨rfl, by decide, by decide, by decide, by decide⟩,
    ⟨(round_trip_conversion roundTripDoc roundTripPalette rfl (by decide)
        (by decide) (by decide) (by decide)).1 ("0", "#111111"),
      (round_trip_conversion roundTripDoc roundTripPalette rfl (by decide)
        (by decide) (by decide) (by decide)).2⟩⟩

end VibeJam

